import Mathlib

/-!
# BalloonWars: VR gesture recorder and gun-tool grip script

A shallow embedding of the two headers of the VRExpansionPlugin copy shipped
with BalloonWars:

* `Public/VRGestureComponent.h`: `EVRGestureState`, `FVRGesture`,
  `UGesturesDatabase` and the inline recorder operations of
  `UVRGestureComponent` (`BeginRecording`, `EndRecording`, `ClearRecording`,
  `SaveRecording`);
* `Public/GripScripts/GS_GunTools.h`: the fields of `UGS_GunTools` and its
  inline `SetShoulderMountComponent`.

Conventions of the embedding.

* A C++ `float` that is only stored and copied is a rational number (every
  finite float is one); `int` is `Int`; `FString` and `FName` are `String`;
  `TArray<T>` is `List T` (element sequence only, the reserved capacity is
  not observable through the operations modelled here).
* A pointer to an engine object whose contents are never touched is an
  optional object handle (`none` is `nullptr`).  `GesturesDB`, whose array is
  written by `SaveRecording`, is an optional database value.
* A member function is a function from the object before the call to the
  object after it, paired with the returned value when there is one.
* The reference parameter `FVRGesture &Recording` of `SaveRecording` is a
  `RecordingRef`: it names the gesture it is bound to (one owned by the
  caller, the component's own `GestureLog`, or an entry of the bound
  database), and reads and writes go through it to that gesture.
-/

namespace BalloonWars

/-! ## Data model -/

/-- The engine's `FVector`: three float components. -/
structure FVector where
  X : ℚ
  Y : ℚ
  Z : ℚ
  deriving DecidableEq, Repr

/-- The engine's `FQuat`: four float components. -/
structure FQuat where
  X : ℚ
  Y : ℚ
  Z : ℚ
  W : ℚ
  deriving DecidableEq, Repr

/-- The engine's `FTransform` (and `FTransform_NetQuantize`, which adds no
field): rotation, translation and scale. -/
structure FTransform where
  Rotation : FQuat
  Translation : FVector
  Scale3D : FVector
  deriving DecidableEq, Repr

/-- The enum `EVRGestureState` of `VRGestureComponent.h`, lines 12-18. -/
inductive EVRGestureState where
  | GES_None
  | GES_Recording
  | GES_Detecting
  deriving DecidableEq, Repr

/-- The struct `FVRGesture` of `VRGestureComponent.h`, lines 20-52. -/
structure FVRGesture where
  Name : String
  Samples : List FVector
  Minimum_Gesture_Length : Int
  firstThreshold : ℚ
  bEnabled : Bool
  deriving DecidableEq, Repr

/-- The default constructor `FVRGesture()`: the three assignments of its body;
`Name` and `Samples` are default-constructed, hence empty. -/
def FVRGesture.ctor : FVRGesture :=
  { Name := ""
    Samples := []
    Minimum_Gesture_Length := 1
    firstThreshold := 10
    bEnabled := true }

/-- The data asset `UGesturesDatabase` of `VRGestureComponent.h`, lines 57-66. -/
structure UGesturesDatabase where
  Gestures : List FVRGesture
  deriving DecidableEq, Repr

/-- The engine's `TArray::Reset(NewSize)`: the array holds no element
afterwards, whatever `NewSize` is (it only sizes the reserved storage). -/
def TArray.Reset {α : Type} (_xs : List α) (_NewSize : Int) : List α := []

/-- The engine's `TArray::Add(Item)`: a copy of `Item` becomes the last
element. -/
def TArray.Add {α : Type} (xs : List α) (Item : α) : List α := xs ++ [Item]

/-- The fields of `UVRGestureComponent` (`VRGestureComponent.h`, lines 94-125)
together with the two pieces of `USceneComponent` state its inline members
read or write: the location returned by `GetComponentLocation()` and the flag
set by `SetComponentTickEnabled`.  `OnGestureDetected_Bind` is the list of
bound listener handles. -/
structure UVRGestureComponent where
  OnGestureDetected_Bind : List Nat
  GesturesDB : Option UGesturesDatabase
  globalThreshold : ℚ
  SameSampleTolerance : ℚ
  RecordingHTZ : Int
  RecordingBufferSize : Int
  RecordingClampingTolerance : ℚ
  maxSlope : Int
  CurrentState : EVRGestureState
  GestureLog : FVRGesture
  StartVector : FVector
  RecordingDelta : ℚ
  ComponentLocation : FVector
  bComponentTickEnabled : Bool
  deriving DecidableEq, Repr

/-! ## Recorder operations (`VRGestureComponent.h`, lines 127-168) -/

/-- The member `GetComponentLocation()` of the scene component. -/
def UVRGestureComponent.GetComponentLocation (self : UVRGestureComponent) : FVector :=
  self.ComponentLocation

/-- The member `SetComponentTickEnabled(bEnabled)` of the component, for a
component that is allowed to tick. -/
def UVRGestureComponent.SetComponentTickEnabled (self : UVRGestureComponent)
    (bEnabled : Bool) : UVRGestureComponent :=
  { self with bComponentTickEnabled := bEnabled }

/-- The member `BeginRecording` (lines 127-142), statement by statement. -/
def BeginRecording (self : UVRGestureComponent) (bRunDetection : Bool)
    (SamplingHTZ : Int) (SampleBufferSize : Int) (ClampingTolerance : ℚ) :
    UVRGestureComponent :=
  let s1 := { self with RecordingBufferSize := SampleBufferSize }
  let s2 := { s1 with RecordingHTZ := SamplingHTZ }
  let s3 := { s2 with RecordingClampingTolerance := ClampingTolerance }
  let s4 := { s3 with
    GestureLog := { s3.GestureLog with
      Samples := TArray.Reset s3.GestureLog.Samples s3.RecordingBufferSize } }
  let s5 := { s4 with RecordingDelta := 0 }
  let s6 := { s5 with
    CurrentState :=
      if bRunDetection then EVRGestureState.GES_Detecting
      else EVRGestureState.GES_Recording }
  let s7 := { s6 with StartVector := s6.GetComponentLocation }
  s7.SetComponentTickEnabled true

/-- The member `BeginRecording` called with its three default arguments
`SamplingHTZ = 60`, `SampleBufferSize = 120`, `ClampingTolerance = 0.01f`. -/
def BeginRecordingDefault (self : UVRGestureComponent) (bRunDetection : Bool) :
    UVRGestureComponent :=
  BeginRecording self bRunDetection 60 120 (1 / 100)

/-- The member `EndRecording` (lines 144-151): the object after the call and
the returned copy of `GestureLog`. -/
def EndRecording (self : UVRGestureComponent) : UVRGestureComponent × FVRGesture :=
  let s1 := self.SetComponentTickEnabled false
  let s2 := { s1 with CurrentState := EVRGestureState.GES_None }
  (s2, s2.GestureLog)

/-- The member `ClearRecording` (lines 153-158). -/
def ClearRecording (self : UVRGestureComponent) : UVRGestureComponent :=
  { self with
    GestureLog := { self.GestureLog with
      Samples := TArray.Reset self.GestureLog.Samples self.RecordingBufferSize } }

/-- What the reference parameter `FVRGesture &Recording` of `SaveRecording` is
bound to: a gesture owned by the caller (outside the component and the
database, carried here with its value), the component's own `GestureLog`, or
the entry `GesturesDB->Gestures[Index]` of the bound database. -/
inductive RecordingRef where
  | caller (Recording : FVRGesture)
  | gestureLog
  | databaseEntry (Index : Nat)
  deriving DecidableEq, Repr

/-- The gesture a reference denotes in a component, `none` when it denotes no
gesture (an entry index beyond the array, or no database). -/
def RecordingRef.read (self : UVRGestureComponent) : RecordingRef → Option FVRGesture
  | .caller Recording => some Recording
  | .gestureLog => some self.GestureLog
  | .databaseEntry Index =>
    match self.GesturesDB with
    | some db => db.Gestures.get? Index
    | none => none

/-- The assignment `Recording.Name = RecordingName` (line 165) through the
reference: the gesture the reference denotes is renamed where it lives, in
the caller's gesture, in `GestureLog`, or in place in the database array. -/
def RecordingRef.assignName (self : UVRGestureComponent) (RecordingName : String) :
    RecordingRef → UVRGestureComponent × RecordingRef
  | .caller Recording => (self, .caller { Recording with Name := RecordingName })
  | .gestureLog =>
    ({ self with GestureLog := { self.GestureLog with Name := RecordingName } }, .gestureLog)
  | .databaseEntry Index =>
    match self.GesturesDB with
    | some db =>
      match db.Gestures.get? Index with
      | some g =>
        ({ self with
            GesturesDB := some { db with
              Gestures := db.Gestures.set Index { g with Name := RecordingName } } },
          .databaseEntry Index)
      | none => (self, .databaseEntry Index)
    | none => (self, .databaseEntry Index)

/-- The call `GesturesDB->Gestures.Add(Recording)` (line 166): a copy of the
gesture the reference denotes becomes the last entry of the bound database.
(For a reference into the array itself the engine stops at an assertion where
container checks are compiled in; the copy is what a build without them
appends.) -/
def RecordingRef.addToDatabase (self : UVRGestureComponent) (Recording : RecordingRef) :
    UVRGestureComponent :=
  match self.GesturesDB, Recording.read self with
  | some db, some g =>
    { self with GesturesDB := some { db with Gestures := TArray.Add db.Gestures g } }
  | _, _ => self

/-- The member `SaveRecording` (lines 160-168): the object after the call and
the reference argument after the call (a caller-owned gesture carries its new
value). -/
def SaveRecording (self : UVRGestureComponent) (Recording : RecordingRef)
    (RecordingName : String) : UVRGestureComponent × RecordingRef :=
  match self.GesturesDB with
  | some _ =>
    let r := Recording.assignName self RecordingName
    (r.2.addToDatabase r.1, r.2)
  | none => (self, Recording)

/-- One call of a recorder operation, with its arguments. -/
inductive RecorderOp where
  | beginRecording (bRunDetection : Bool) (SamplingHTZ : Int) (SampleBufferSize : Int)
      (ClampingTolerance : ℚ)
  | endRecording
  | clearRecording
  | saveRecording (Recording : RecordingRef) (RecordingName : String)
  deriving DecidableEq, Repr

/-- The component after one recorder call. -/
def RecorderOp.apply (self : UVRGestureComponent) : RecorderOp → UVRGestureComponent
  | .beginRecording b hz sz tol => BeginRecording self b hz sz tol
  | .endRecording => (EndRecording self).1
  | .clearRecording => ClearRecording self
  | .saveRecording r n => (SaveRecording self r n).1

/-- The component after a sequence of recorder calls, first call first. -/
def runRecorderOps (self : UVRGestureComponent) (ops : List RecorderOp) :
    UVRGestureComponent :=
  ops.foldl RecorderOp.apply self

/-- A concrete component used to evaluate the operations: nothing bound, idle,
ticking off, the log default-constructed. -/
def exampleComponent : UVRGestureComponent :=
  { OnGestureDetected_Bind := []
    GesturesDB := none
    globalThreshold := 10
    SameSampleTolerance := 1 / 10
    RecordingHTZ := 30
    RecordingBufferSize := 60
    RecordingClampingTolerance := 1 / 100
    maxSlope := 3
    CurrentState := EVRGestureState.GES_None
    GestureLog := FVRGesture.ctor
    StartVector := ⟨0, 0, 0⟩
    RecordingDelta := 0
    ComponentLocation := ⟨1, 2, 3⟩
    bComponentTickEnabled := false }

/-- The three collinear points `(0,0,0), (1,0,0), (2,0,0)`. -/
def collinearSamples : List FVector := [⟨0, 0, 0⟩, ⟨1, 0, 0⟩, ⟨2, 0, 0⟩]

/-- A recorded gesture holding the three collinear points. -/
def collinearGesture : FVRGesture :=
  { FVRGesture.ctor with Name := "line", Samples := collinearSamples }

/-- A component with a one-entry database bound and a non-empty log. -/
def exampleComponentWithDB : UVRGestureComponent :=
  { exampleComponent with
    GesturesDB := some { Gestures := [collinearGesture] }
    GestureLog := { FVRGesture.ctor with Samples := collinearSamples } }

/-- The example component while idle with its tick function enabled (the
engine's `SetComponentTickEnabled(true)` is public and independent of
`CurrentState`). -/
def idleTickingComponent : UVRGestureComponent :=
  { exampleComponent with bComponentTickEnabled := true }

/-- The example component after `BeginRecording(false)`: it is recording. -/
def recordingComponent : UVRGestureComponent :=
  BeginRecordingDefault exampleComponent false

/-- The example component after `BeginRecording(true)`: it is detecting. -/
def detectingComponent : UVRGestureComponent :=
  BeginRecordingDefault exampleComponent true

/-- A component with a one-entry database bound and a default-constructed
log. -/
def exampleComponentFreshLog : UVRGestureComponent :=
  { exampleComponentWithDB with GestureLog := FVRGesture.ctor }

/-- A sequence of recorder calls touching every operation. -/
def exampleOps : List RecorderOp :=
  [ RecorderOp.beginRecording true 60 120 (1 / 100),
    RecorderOp.saveRecording RecordingRef.gestureLog "first",
    RecorderOp.clearRecording,
    RecorderOp.endRecording,
    RecorderOp.saveRecording
      (RecordingRef.caller { collinearGesture with Minimum_Gesture_Length := 0 }) "other",
    RecorderOp.saveRecording (RecordingRef.databaseEntry 0) "again",
    RecorderOp.beginRecording false 30 10 0 ]

/-! ## Gun-tool grip script (`GripScripts/GS_GunTools.h`) -/

/-- The fields declared by `UGS_GunTools` (lines 19-70).  The weak pointer
`ShoulderMountComponent` is an optional object handle. -/
structure UGS_GunTools where
  PivotOffset : FVector
  ShoulderMountComponent : Option Nat
  bUseDistanceBasedShoulderSnapping : Bool
  ShoulderSnapDistance : ℚ
  ShoulderMountRelativeTransform : FTransform
  ShoulderMountSocketOverride : String
  bHasRecoil : Bool
  MaxRecoil : FTransform
  DecayRate : ℚ
  LerpRate : ℚ
  BackEndRecoilStorage : FTransform
  BackEndRecoilTarget : FTransform
  deriving DecidableEq, Repr

/-- The member `SetShoulderMountComponent` (lines 35-39): one assignment; the
second parameter does not occur in the body. -/
def SetShoulderMountComponent (self : UGS_GunTools) (NewShoulderComponent : Option Nat)
    (_bShouldBeUsedAsShoulderMount : Bool) : UGS_GunTools :=
  { self with ShoulderMountComponent := NewShoulderComponent }

/-- The identity transform. -/
def FTransform.Identity : FTransform :=
  { Rotation := ⟨0, 0, 0, 1⟩, Translation := ⟨0, 0, 0⟩, Scale3D := ⟨1, 1, 1⟩ }

/-- A concrete gun tool used to evaluate the operation. -/
def exampleGunTools : UGS_GunTools :=
  { PivotOffset := ⟨0, 0, 0⟩
    ShoulderMountComponent := none
    bUseDistanceBasedShoulderSnapping := true
    ShoulderSnapDistance := 35
    ShoulderMountRelativeTransform := FTransform.Identity
    ShoulderMountSocketOverride := ""
    bHasRecoil := false
    MaxRecoil := FTransform.Identity
    DecayRate := 200
    LerpRate := 30
    BackEndRecoilStorage := FTransform.Identity
    BackEndRecoilTarget := FTransform.Identity }

/-! ## Dynamic time warping (`UVRGestureComponent::dtw`, declared at line 182)

The header only declares `dtw`; its body is in a translation unit that is not
part of the sources at hand.  The definitions below follow section 4.2 of the
specification.  Costs are exact: a cost is a number or `⊤` (infinity), and the
cost grid is generic in the number type so that it can be evaluated over `ℚ`
and instantiated with the Euclidean distance over `ℝ`. -/

/-- Modelled from the spec: one entry of the cost grid of `dtw`, whose body is
missing.  Besides the cumulative `cost` it carries the number of consecutive
purely horizontal (`slopeI`) and purely vertical (`slopeJ`) steps with which
the cheapest admissible path arrives at the entry. -/
structure DtwCell (K : Type) where
  cost : WithTop K
  slopeI : Nat
  slopeJ : Nat

/-- Modelled from the spec: the border entry of the grid of `dtw` (row 0 and
column 0 apart from the origin), of infinite cost. -/
def DtwCell.unreachable {K : Type} : DtwCell K := ⟨⊤, 0, 0⟩

/-- Modelled from the spec: the origin of the grid of `dtw`,
`cost[0][0] = 0`. -/
def DtwCell.origin {K : Type} [Zero K] : DtwCell K := ⟨0, 0, 0⟩

/-- Modelled from the spec: the cost a neighbouring entry offers to a path of
`dtw` that would be extended by one more step in the direction `run` counts;
once `run` has reached `maxSlope` the path is disallowed (cost infinity). -/
def dtwBounded {K : Type} (maxSlope : Int) (run : Nat) (c : WithTop K) : WithTop K :=
  if (run : Int) < maxSlope then c else ⊤

/-- Modelled from the spec: the recurrence of `dtw` for an inner entry,
`cost[i][j] = pointDistance(A[i-1], B[j-1]) +
  min(cost[i-1][j], cost[i][j-1], cost[i-1][j-1])`
with the vertical and horizontal neighbours bounded by `maxSlope`.  `d` is the
point distance, `diag`, `up`, `left` are the entries `[i-1][j-1]`, `[i-1][j]`,
`[i][j-1]`.  On equal costs the diagonal step is taken, then the horizontal. -/
def dtwStep {K : Type} [LinearOrderedField K] (maxSlope : Int) (d : K)
    (diag up left : DtwCell K) : DtwCell K :=
  let upC := dtwBounded maxSlope up.slopeJ up.cost
  let leftC := dtwBounded maxSlope left.slopeI left.cost
  { cost := (d : WithTop K) + min upC (min leftC diag.cost)
    slopeI := if diag.cost ≤ upC ∧ diag.cost ≤ leftC then 0
              else if leftC ≤ upC then left.slopeI + 1 else 0
    slopeJ := if diag.cost ≤ upC ∧ diag.cost ≤ leftC then 0
              else if leftC ≤ upC then 0 else up.slopeJ + 1 }

/-- Modelled from the spec: row `i ≥ 1` of the grid of `dtw` as a function of
the column, from the row above (`prevRow`) and the sample `a = A[i-1]`.
Column 0 is infinite; a column beyond the end of `B` is outside the grid. -/
def dtwRow {K : Type} [LinearOrderedField K] (dist : FVector → FVector → K)
    (maxSlope : Int) (B : List FVector) (prevRow : Nat → DtwCell K) (a : FVector) :
    Nat → DtwCell K
  | 0 => DtwCell.unreachable
  | j + 1 =>
    match B.get? j with
    | some b =>
      dtwStep maxSlope (dist a b) (prevRow j) (prevRow (j + 1))
        (dtwRow dist maxSlope B prevRow a j)
    | none => DtwCell.unreachable

/-- Modelled from the spec: the `(lenA+1) × (lenB+1)` cost grid of `dtw`,
`dtwTable dist maxSlope A B i j` being the entry `[i][j]`. -/
def dtwTable {K : Type} [LinearOrderedField K] (dist : FVector → FVector → K)
    (maxSlope : Int) (A B : List FVector) : Nat → Nat → DtwCell K
  | 0 => fun j => if j = 0 then DtwCell.origin else DtwCell.unreachable
  | i + 1 =>
    match A.get? i with
    | some a => dtwRow dist maxSlope B (dtwTable dist maxSlope A B i) a
    | none => fun _ => DtwCell.unreachable

/-- Modelled from the spec: the value `cost[lenA][lenB]` returned by `dtw`,
for an arbitrary point distance. -/
def dtwWith {K : Type} [LinearOrderedField K] (dist : FVector → FVector → K)
    (maxSlope : Int) (A B : List FVector) : WithTop K :=
  (dtwTable dist maxSlope A B A.length B.length).cost

/-- Modelled from the spec: `pointDistance`, the Euclidean distance in 3-space
between two samples, used by `dtw`. -/
noncomputable def pointDistance (a b : FVector) : ℝ :=
  Real.sqrt ((((a.X - b.X) ^ 2 + (a.Y - b.Y) ^ 2 + (a.Z - b.Z) ^ 2 : ℚ) : ℝ))

/-- Modelled from the spec: the member `dtw(seq1, seq2)` of
`UVRGestureComponent`, declared at line 182 with its body missing: the entry
`cost[lenA][lenB]` of the grid built with the Euclidean point distance and the
component's `maxSlope`. -/
noncomputable def dtw (self : UVRGestureComponent) (seq1 seq2 : FVRGesture) : WithTop ℝ :=
  dtwWith pointDistance self.maxSlope seq1.Samples seq2.Samples

/-- Modelled from the spec: `dtw` read with the comment above its declaration
(line 181, "the min DTW distance between seq2 and all possible endings of
seq1"; the body is missing): the least `dtwWith` cost of `B` against a
non-empty ending of `A`, infinity when `A` has none. -/
def dtwOverEndingsWith {K : Type} [LinearOrderedField K] (dist : FVector → FVector → K)
    (maxSlope : Int) (A B : List FVector) : WithTop K :=
  ((A.tails.filter (fun A1 => !A1.isEmpty)).map
    (fun A1 => dtwWith dist maxSlope A1 B)).foldr min ⊤

/-- Modelled from the spec: the member `dtw` under the reading of
`dtwOverEndingsWith`, with the Euclidean point distance and the component's
`maxSlope`. -/
noncomputable def dtwOverEndings (self : UVRGestureComponent) (seq1 seq2 : FVRGesture) :
    WithTop ℝ :=
  dtwOverEndingsWith pointDistance self.maxSlope seq1.Samples seq2.Samples

/-- The taxicab distance over `ℚ`, a computable point distance with which the
cost grid can be evaluated. -/
def taxicabDistance (a b : FVector) : ℚ :=
  |a.X - b.X| + |a.Y - b.Y| + |a.Z - b.Z|

/-! ## Theorems: recorder operations -/

/-- Renaming through a reference leaves `CurrentState` and the log's minimum
length as they are. -/
theorem RecordingRef.assignName_frame (s : UVRGestureComponent) (n : String)
    (r : RecordingRef) :
    (r.assignName s n).1.CurrentState = s.CurrentState
    ∧ (r.assignName s n).1.GestureLog.Minimum_Gesture_Length
        = s.GestureLog.Minimum_Gesture_Length := by
  cases r with
  | caller g => exact ⟨rfl, rfl⟩
  | gestureLog => exact ⟨rfl, rfl⟩
  | databaseEntry i =>
    simp only [RecordingRef.assignName]
    split
    · split <;> exact ⟨rfl, rfl⟩
    · exact ⟨rfl, rfl⟩

/-- Appending to the database leaves `CurrentState` and the log as they
are. -/
theorem RecordingRef.addToDatabase_frame (s : UVRGestureComponent) (r : RecordingRef) :
    (r.addToDatabase s).CurrentState = s.CurrentState
    ∧ (r.addToDatabase s).GestureLog = s.GestureLog := by
  unfold RecordingRef.addToDatabase
  split <;> exact ⟨rfl, rfl⟩

/-- The member `SaveRecording` leaves `CurrentState` and the log's minimum
length as they are, whatever its reference argument is bound to. -/
theorem SaveRecording_frame (s : UVRGestureComponent) (r : RecordingRef) (n : String) :
    (SaveRecording s r n).1.CurrentState = s.CurrentState
    ∧ (SaveRecording s r n).1.GestureLog.Minimum_Gesture_Length
        = s.GestureLog.Minimum_Gesture_Length := by
  unfold SaveRecording
  cases s.GesturesDB with
  | none => exact ⟨rfl, rfl⟩
  | some db =>
    refine ⟨?_, ?_⟩
    · show ((r.assignName s n).2.addToDatabase (r.assignName s n).1).CurrentState = _
      rw [(RecordingRef.addToDatabase_frame _ _).1, (RecordingRef.assignName_frame s n r).1]
    · show ((r.assignName s n).2.addToDatabase
        (r.assignName s n).1).GestureLog.Minimum_Gesture_Length = _
      rw [(RecordingRef.addToDatabase_frame _ _).2, (RecordingRef.assignName_frame s n r).2]

/-- No recorder call changes `GestureLog.Minimum_Gesture_Length`. -/
theorem RecorderOp.apply_min (s : UVRGestureComponent) (op : RecorderOp) :
    (op.apply s).GestureLog.Minimum_Gesture_Length
      = s.GestureLog.Minimum_Gesture_Length := by
  cases op with
  | beginRecording b hz sz tol => rfl
  | endRecording => rfl
  | clearRecording => rfl
  | saveRecording r n => exact (SaveRecording_frame s r n).2

/-- No sequence of recorder calls changes
`GestureLog.Minimum_Gesture_Length`. -/
theorem runRecorderOps_min (ops : List RecorderOp) (s : UVRGestureComponent) :
    (runRecorderOps s ops).GestureLog.Minimum_Gesture_Length
      = s.GestureLog.Minimum_Gesture_Length := by
  induction ops generalizing s with
  | nil => rfl
  | cons op rest ih =>
    show (runRecorderOps (op.apply s) rest).GestureLog.Minimum_Gesture_Length = _
    rw [ih, RecorderOp.apply_min]

/-- C1: after `BeginRecording`, from every component and for every argument
tuple, the sample buffer is empty, `RecordingDelta` is 0, `StartVector` is the
component's current location, ticking is enabled, the three recording
parameters hold the passed values, and `CurrentState` is `GES_Detecting` when
`bRunDetection` is true and `GES_Recording` otherwise. -/
theorem BeginRecording_postcondition (s : UVRGestureComponent) (bRunDetection : Bool)
    (SamplingHTZ SampleBufferSize : Int) (ClampingTolerance : ℚ) :
    (BeginRecording s bRunDetection SamplingHTZ SampleBufferSize
        ClampingTolerance).GestureLog.Samples = []
    ∧ (BeginRecording s bRunDetection SamplingHTZ SampleBufferSize
        ClampingTolerance).RecordingDelta = 0
    ∧ (BeginRecording s bRunDetection SamplingHTZ SampleBufferSize
        ClampingTolerance).StartVector = s.GetComponentLocation
    ∧ (BeginRecording s bRunDetection SamplingHTZ SampleBufferSize
        ClampingTolerance).bComponentTickEnabled = true
    ∧ (BeginRecording s bRunDetection SamplingHTZ SampleBufferSize
        ClampingTolerance).RecordingHTZ = SamplingHTZ
    ∧ (BeginRecording s bRunDetection SamplingHTZ SampleBufferSize
        ClampingTolerance).RecordingBufferSize = SampleBufferSize
    ∧ (BeginRecording s bRunDetection SamplingHTZ SampleBufferSize
        ClampingTolerance).RecordingClampingTolerance = ClampingTolerance
    ∧ (BeginRecording s bRunDetection SamplingHTZ SampleBufferSize
        ClampingTolerance).CurrentState
        = (if bRunDetection then EVRGestureState.GES_Detecting
           else EVRGestureState.GES_Recording) :=
  ⟨rfl, rfl, rfl, rfl, rfl, rfl, rfl, rfl⟩

/-- C2, as stated, fails: a single `BeginRecording(true)` takes a recording
component straight to `GES_Detecting`, and a single `BeginRecording(false)`
takes a detecting component straight to `GES_Recording`. -/
theorem BeginRecording_switches_mode_directly :
    recordingComponent.CurrentState = EVRGestureState.GES_Recording
    ∧ (BeginRecording recordingComponent true 60 120 (1 / 100)).CurrentState
        = EVRGestureState.GES_Detecting
    ∧ detectingComponent.CurrentState = EVRGestureState.GES_Detecting
    ∧ (BeginRecording detectingComponent false 60 120 (1 / 100)).CurrentState
        = EVRGestureState.GES_Recording :=
  ⟨rfl, rfl, rfl, rfl⟩

/-- C2, amended: `EndRecording` always ends in `GES_None`, `ClearRecording` and
`SaveRecording` (whatever its reference argument is bound to) keep
`CurrentState`, so none of the three moves a component between
`GES_Recording` and `GES_Detecting`; `BeginRecording` sets `CurrentState` from
`bRunDetection` alone, whatever the state before. -/
theorem recorder_transitions (s : UVRGestureComponent) (bRunDetection : Bool)
    (SamplingHTZ SampleBufferSize : Int) (ClampingTolerance : ℚ)
    (Recording : RecordingRef) (RecordingName : String) :
    (EndRecording s).1.CurrentState = EVRGestureState.GES_None
    ∧ (ClearRecording s).CurrentState = s.CurrentState
    ∧ (SaveRecording s Recording RecordingName).1.CurrentState = s.CurrentState
    ∧ (BeginRecording s bRunDetection SamplingHTZ SampleBufferSize
        ClampingTolerance).CurrentState
        = (if bRunDetection then EVRGestureState.GES_Detecting
           else EVRGestureState.GES_Recording) :=
  ⟨rfl, rfl, (SaveRecording_frame s Recording RecordingName).1, rfl⟩

/-- C3: `EndRecording` returns the `GestureLog` held before the call, leaves
`GestureLog` itself unchanged, disables ticking and sets `CurrentState` to
`GES_None`. -/
theorem EndRecording_postcondition (s : UVRGestureComponent) :
    (EndRecording s).2 = s.GestureLog
    ∧ (EndRecording s).1.GestureLog = s.GestureLog
    ∧ (EndRecording s).1.bComponentTickEnabled = false
    ∧ (EndRecording s).1.CurrentState = EVRGestureState.GES_None :=
  ⟨rfl, rfl, rfl, rfl⟩

/-- C4, as stated, fails: when `Recording` is bound to entry 0 of the bound
database, the assignment of line 165 renames that entry in place, so after
the call index 0 no longer holds the entry it held before. -/
theorem SaveRecording_renames_aliased_entry :
    exampleComponentWithDB.GesturesDB = some { Gestures := [collinearGesture] }
    ∧ (RecordingRef.databaseEntry 0).read exampleComponentWithDB = some collinearGesture
    ∧ ((RecordingRef.databaseEntry 0).assignName exampleComponentWithDB
        "renamed").1.GesturesDB
        = some { Gestures := [{ collinearGesture with Name := "renamed" }] }
    ∧ (SaveRecording exampleComponentWithDB (RecordingRef.databaseEntry 0)
        "renamed").1.GesturesDB
        = some { Gestures := [{ collinearGesture with Name := "renamed" },
                              { collinearGesture with Name := "renamed" }] }
    ∧ [{ collinearGesture with Name := "renamed" },
        { collinearGesture with Name := "renamed" }].get? 0
        ≠ [collinearGesture].get? 0 := by
  refine ⟨rfl, rfl, rfl, rfl, fun h => ?_⟩
  have hname : "renamed" = "line" := congrArg FVRGesture.Name (Option.some.inj h)
  exact absurd hname (by decide)

/-- C4, amended: with a database bound and `Recording` not bound to an entry of
that database (a gesture owned by the caller, or the component's own
`GestureLog`), `SaveRecording` renames `Recording` (nothing else of it
changes) and appends it: the database is one entry longer, its last entry is
the renamed `Recording`, and every earlier index holds the entry it held
before. -/
theorem SaveRecording_appends (s : UVRGestureComponent) (db : UGesturesDatabase)
    (Recording : RecordingRef) (g : FVRGesture) (RecordingName : String)
    (hdb : s.GesturesDB = some db) (hread : Recording.read s = some g)
    (hown : ∀ Index : Nat, Recording ≠ RecordingRef.databaseEntry Index) :
    (SaveRecording s Recording RecordingName).2.read
        (SaveRecording s Recording RecordingName).1
        = some { g with Name := RecordingName }
    ∧ ∃ db1 : UGesturesDatabase,
        (SaveRecording s Recording RecordingName).1.GesturesDB = some db1
        ∧ db1.Gestures.length = db.Gestures.length + 1
        ∧ db1.Gestures.getLast? = some { g with Name := RecordingName }
        ∧ ∀ i : Nat, i < db.Gestures.length → db1.Gestures.get? i = db.Gestures.get? i := by
  have hlist : ∀ i : Nat, i < db.Gestures.length →
      (TArray.Add db.Gestures { g with Name := RecordingName }).get? i
        = db.Gestures.get? i := by
    intro i hi
    simp [TArray.Add, List.getElem?_append_left hi]
  cases Recording with
  | databaseEntry Index => exact absurd rfl (hown Index)
  | caller r =>
    have hg : r = g := Option.some.inj hread
    subst hg
    unfold SaveRecording
    rw [hdb]
    simp only [RecordingRef.assignName, RecordingRef.addToDatabase, RecordingRef.read, hdb]
    exact ⟨trivial, _, rfl, by simp [TArray.Add], by simp [TArray.Add], hlist⟩
  | gestureLog =>
    have hg : s.GestureLog = g := Option.some.inj hread
    subst hg
    unfold SaveRecording
    rw [hdb]
    simp only [RecordingRef.assignName, RecordingRef.addToDatabase, RecordingRef.read, hdb]
    exact ⟨trivial, _, rfl, by simp [TArray.Add], by simp [TArray.Add], hlist⟩

/-- C4 amended, at a concrete input: saving a caller-owned copy of the only
database entry under the name that entry already has. -/
theorem SaveRecording_appends_witness :
    exampleComponentWithDB.GesturesDB = some { Gestures := [collinearGesture] }
    ∧ (RecordingRef.caller collinearGesture).read exampleComponentWithDB
        = some collinearGesture
    ∧ (∀ Index : Nat,
        RecordingRef.caller collinearGesture ≠ RecordingRef.databaseEntry Index)
    ∧ ∃ db1 : UGesturesDatabase,
        (SaveRecording exampleComponentWithDB (RecordingRef.caller collinearGesture)
          "line").1.GesturesDB = some db1
        ∧ db1.Gestures.length = 1 + 1
        ∧ db1.Gestures.getLast? = some { collinearGesture with Name := "line" }
        ∧ ∀ i : Nat, i < 1 → db1.Gestures.get? i = [collinearGesture].get? i :=
  ⟨rfl, rfl, fun _ h => RecordingRef.noConfusion h,
    (SaveRecording_appends exampleComponentWithDB { Gestures := [collinearGesture] }
      (RecordingRef.caller collinearGesture) collinearGesture "line" rfl rfl
      (fun _ h => RecordingRef.noConfusion h)).2⟩

/-- C5: with no database bound, `SaveRecording` changes neither the component
nor the passed `Recording`, whatever the reference is bound to. -/
theorem SaveRecording_unbound (s : UVRGestureComponent) (Recording : RecordingRef)
    (RecordingName : String) (hdb : s.GesturesDB = none) :
    SaveRecording s Recording RecordingName = (s, Recording)
    ∧ Recording.read (SaveRecording s Recording RecordingName).1 = Recording.read s := by
  unfold SaveRecording
  rw [hdb]
  exact ⟨rfl, rfl⟩

/-- C5 at a concrete input: the example component has no database. -/
theorem SaveRecording_unbound_witness :
    exampleComponent.GesturesDB = none
    ∧ SaveRecording exampleComponent (RecordingRef.caller collinearGesture) "renamed"
        = (exampleComponent, RecordingRef.caller collinearGesture) :=
  ⟨rfl, (SaveRecording_unbound exampleComponent (RecordingRef.caller collinearGesture)
    "renamed" rfl).1⟩

/-- C6: `ClearRecording` empties `GestureLog.Samples` and changes no other
field of the component or of the gesture log. -/
theorem ClearRecording_frame (s : UVRGestureComponent) :
    (ClearRecording s).GestureLog.Samples = []
    ∧ ClearRecording s = { s with GestureLog := { s.GestureLog with Samples := [] } }
    ∧ (ClearRecording s).CurrentState = s.CurrentState
    ∧ (ClearRecording s).RecordingDelta = s.RecordingDelta
    ∧ (ClearRecording s).StartVector = s.StartVector
    ∧ (ClearRecording s).RecordingHTZ = s.RecordingHTZ
    ∧ (ClearRecording s).RecordingBufferSize = s.RecordingBufferSize
    ∧ (ClearRecording s).RecordingClampingTolerance = s.RecordingClampingTolerance
    ∧ (ClearRecording s).GestureLog.Name = s.GestureLog.Name
    ∧ (ClearRecording s).GestureLog.Minimum_Gesture_Length
        = s.GestureLog.Minimum_Gesture_Length
    ∧ (ClearRecording s).GestureLog.firstThreshold = s.GestureLog.firstThreshold
    ∧ (ClearRecording s).GestureLog.bEnabled = s.GestureLog.bEnabled
    ∧ (ClearRecording s).GesturesDB = s.GesturesDB
    ∧ (ClearRecording s).bComponentTickEnabled = s.bComponentTickEnabled :=
  ⟨rfl, rfl, rfl, rfl, rfl, rfl, rfl, rfl, rfl, rfl, rfl, rfl, rfl, rfl⟩

/-- C7, as stated, fails: on an idle component whose tick function is enabled,
`EndRecording` disables ticking, so the component after the call differs from
the component before it. -/
theorem EndRecording_idle_changes_state :
    idleTickingComponent.CurrentState = EVRGestureState.GES_None
    ∧ (EndRecording idleTickingComponent).1 ≠ idleTickingComponent := by
  refine ⟨rfl, fun h => ?_⟩
  have htick : false = true := congrArg UVRGestureComponent.bComponentTickEnabled h
  exact Bool.noConfusion htick

/-- C7, amended: on an idle component `EndRecording` leaves `CurrentState` at
`GES_None` and changes no field other than the tick flag, which it clears;
when ticking was already disabled the component is unchanged. -/
theorem EndRecording_idle (s : UVRGestureComponent)
    (hidle : s.CurrentState = EVRGestureState.GES_None) :
    (EndRecording s).1.CurrentState = EVRGestureState.GES_None
    ∧ (EndRecording s).1 = { s with bComponentTickEnabled := false }
    ∧ (s.bComponentTickEnabled = false → (EndRecording s).1 = s) := by
  obtain ⟨a, b, c, d, e, f, g, h, st, k, l, m, n, tick⟩ := s
  simp only at hidle
  subst hidle
  refine ⟨rfl, rfl, ?_⟩
  intro htick
  simp only at htick
  subst htick
  rfl

/-- C7 amended, at a concrete input: the example component is idle with
ticking off, and `EndRecording` leaves it as it is. -/
theorem EndRecording_idle_witness :
    exampleComponent.CurrentState = EVRGestureState.GES_None
    ∧ (EndRecording exampleComponent).1 = exampleComponent :=
  ⟨rfl, (EndRecording_idle exampleComponent rfl).2.2 rfl⟩

/-- C9: a default-constructed `FVRGesture` has `Minimum_Gesture_Length = 1`,
`firstThreshold = 10` and `bEnabled = true`; starting from a
default-constructed `GestureLog`, after every sequence of `BeginRecording`,
`ClearRecording`, `EndRecording` and `SaveRecording` calls (with any
arguments, `SaveRecording` on a caller's gesture, on the log itself or on a
database entry) the log's `Minimum_Gesture_Length` is at least 1, and so is
that of the gesture `EndRecording` then returns and of the entry
`SaveRecording` appends from it. -/
theorem GestureLog_minimum_length (s0 : UVRGestureComponent)
    (hlog : s0.GestureLog = FVRGesture.ctor) (ops : List RecorderOp)
    (RecordingName : String) :
    FVRGesture.ctor.Minimum_Gesture_Length = 1
    ∧ FVRGesture.ctor.firstThreshold = 10
    ∧ FVRGesture.ctor.bEnabled = true
    ∧ 1 ≤ (runRecorderOps s0 ops).GestureLog.Minimum_Gesture_Length
    ∧ 1 ≤ (EndRecording (runRecorderOps s0 ops)).2.Minimum_Gesture_Length
    ∧ ∀ db : UGesturesDatabase, (runRecorderOps s0 ops).GesturesDB = some db →
        ∃ g : FVRGesture, 1 ≤ g.Minimum_Gesture_Length
          ∧ (SaveRecording (EndRecording (runRecorderOps s0 ops)).1
              (RecordingRef.caller (EndRecording (runRecorderOps s0 ops)).2)
              RecordingName).1.GesturesDB
            = some { Gestures := db.Gestures ++ [g] } := by
  have hmin : (runRecorderOps s0 ops).GestureLog.Minimum_Gesture_Length = 1 := by
    rw [runRecorderOps_min, hlog]
    rfl
  refine ⟨rfl, rfl, rfl, le_of_eq hmin.symm, le_of_eq hmin.symm, ?_⟩
  intro db hdb
  refine ⟨{ (runRecorderOps s0 ops).GestureLog with Name := RecordingName },
    le_of_eq hmin.symm, ?_⟩
  have hdb1 : (EndRecording (runRecorderOps s0 ops)).1.GesturesDB = some db := hdb
  unfold SaveRecording
  rw [hdb1]
  simp only [RecordingRef.assignName, RecordingRef.addToDatabase, RecordingRef.read, hdb1]
  rfl

/-- C9 at a concrete input: a component with a database bound and a
default-constructed log, run through a sequence using every operation. -/
theorem GestureLog_minimum_length_witness :
    exampleComponentFreshLog.GestureLog = FVRGesture.ctor
    ∧ 1 ≤ (runRecorderOps exampleComponentFreshLog exampleOps).GestureLog.Minimum_Gesture_Length
    ∧ 1 ≤ (EndRecording (runRecorderOps exampleComponentFreshLog
            exampleOps)).2.Minimum_Gesture_Length :=
  ⟨rfl, (GestureLog_minimum_length exampleComponentFreshLog rfl exampleOps "saved").2.2.2.1,
    (GestureLog_minimum_length exampleComponentFreshLog rfl exampleOps "saved").2.2.2.2.1⟩

/-! ## Theorems: gun-tool grip script -/

/-- C10: `SetShoulderMountComponent` ignores `bShouldBeUsedAsShoulderMount`:
with the flag true and with the flag false it yields the same gun tool, in
which `ShoulderMountComponent` is the passed component and every other field
is as before. -/
theorem SetShoulderMountComponent_ignores_flag (s : UGS_GunTools)
    (NewShoulderComponent : Option Nat) (bShouldBeUsedAsShoulderMount : Bool) :
    SetShoulderMountComponent s NewShoulderComponent true
      = SetShoulderMountComponent s NewShoulderComponent false
    ∧ SetShoulderMountComponent s NewShoulderComponent bShouldBeUsedAsShoulderMount
      = { s with ShoulderMountComponent := NewShoulderComponent }
    ∧ (SetShoulderMountComponent s NewShoulderComponent
        bShouldBeUsedAsShoulderMount).ShoulderMountComponent = NewShoulderComponent
    ∧ (SetShoulderMountComponent s NewShoulderComponent
        bShouldBeUsedAsShoulderMount).bUseDistanceBasedShoulderSnapping
      = s.bUseDistanceBasedShoulderSnapping
    ∧ (SetShoulderMountComponent s NewShoulderComponent
        bShouldBeUsedAsShoulderMount).ShoulderSnapDistance = s.ShoulderSnapDistance :=
  ⟨rfl, rfl, rfl, rfl, rfl⟩

/-! ## Theorems: dynamic time warping -/

/-- A bounded neighbour cost is non-negative when the neighbour's cost is. -/
theorem dtwBounded_nonneg {K : Type} [LinearOrderedField K] (maxSlope : Int) (run : Nat)
    (c : WithTop K) (hc : 0 ≤ c) : 0 ≤ dtwBounded maxSlope run c := by
  unfold dtwBounded
  split
  · exact hc
  · exact le_top

/-- The recurrence yields a non-negative cost from non-negative inputs. -/
theorem dtwStep_cost_nonneg {K : Type} [LinearOrderedField K] (maxSlope : Int) (d : K)
    (diag up left : DtwCell K) (hd : 0 ≤ d) (hdiag : 0 ≤ diag.cost) (hup : 0 ≤ up.cost)
    (hleft : 0 ≤ left.cost) : 0 ≤ (dtwStep maxSlope d diag up left).cost := by
  show 0 ≤ (d : WithTop K) + min (dtwBounded maxSlope up.slopeJ up.cost)
    (min (dtwBounded maxSlope left.slopeI left.cost) diag.cost)
  exact add_nonneg (WithTop.coe_nonneg.mpr hd)
    (le_min (dtwBounded_nonneg _ _ _ hup) (le_min (dtwBounded_nonneg _ _ _ hleft) hdiag))

/-- The recurrence yields cost zero when the point distance and the diagonal
neighbour are zero and the other neighbours are non-negative. -/
theorem dtwStep_cost_zero {K : Type} [LinearOrderedField K] (maxSlope : Int) (d : K)
    (diag up left : DtwCell K) (hd : d = 0) (hdiag : diag.cost = 0) (hup : 0 ≤ up.cost)
    (hleft : 0 ≤ left.cost) : (dtwStep maxSlope d diag up left).cost = 0 := by
  show (d : WithTop K) + min (dtwBounded maxSlope up.slopeJ up.cost)
    (min (dtwBounded maxSlope left.slopeI left.cost) diag.cost) = 0
  rw [hd, hdiag, min_eq_right (dtwBounded_nonneg _ _ _ hleft),
    min_eq_right (dtwBounded_nonneg _ _ _ hup), WithTop.coe_zero, zero_add]

/-- Every entry of a row has non-negative cost when the row above has. -/
theorem dtwRow_cost_nonneg {K : Type} [LinearOrderedField K] (dist : FVector → FVector → K)
    (hdist : ∀ a b, 0 ≤ dist a b) (maxSlope : Int) (B : List FVector)
    (prevRow : Nat → DtwCell K) (hprev : ∀ j, 0 ≤ (prevRow j).cost) (a : FVector) (j : Nat) :
    0 ≤ (dtwRow dist maxSlope B prevRow a j).cost := by
  induction j with
  | zero => exact le_top
  | succ j ih =>
    unfold dtwRow
    cases B.get? j with
    | none => exact le_top
    | some b => exact dtwStep_cost_nonneg _ _ _ _ _ (hdist a b) (hprev j) (hprev (j + 1)) ih

/-- Every entry of the cost grid has non-negative cost. -/
theorem dtwTable_cost_nonneg {K : Type} [LinearOrderedField K]
    (dist : FVector → FVector → K) (hdist : ∀ a b, 0 ≤ dist a b) (maxSlope : Int)
    (A B : List FVector) (i j : Nat) : 0 ≤ (dtwTable dist maxSlope A B i j).cost := by
  induction i generalizing j with
  | zero =>
    unfold dtwTable
    split
    · exact le_refl _
    · exact le_top
  | succ i ih =>
    unfold dtwTable
    cases A.get? i with
    | none => exact le_top
    | some a => exact dtwRow_cost_nonneg dist hdist maxSlope B _ ih a j

/-- The diagonal of the grid of a sequence against itself is zero. -/
theorem dtwTable_diagonal {K : Type} [LinearOrderedField K] (dist : FVector → FVector → K)
    (hdist : ∀ a b, 0 ≤ dist a b) (hself : ∀ a, dist a a = 0) (maxSlope : Int)
    (S : List FVector) (i : Nat) (hi : i ≤ S.length) :
    (dtwTable dist maxSlope S S i i).cost = 0 := by
  induction i with
  | zero => rfl
  | succ i ih =>
    have hlt : i < S.length := hi
    have hget : S.get? i = some (S.get ⟨i, hlt⟩) := List.get?_eq_get hlt
    unfold dtwTable
    rw [hget]
    show (dtwRow dist maxSlope S (dtwTable dist maxSlope S S i) (S.get ⟨i, hlt⟩) (i + 1)).cost = 0
    unfold dtwRow
    rw [hget]
    exact dtwStep_cost_zero _ _ _ _ _ (hself _) (ih (Nat.le_of_lt hlt))
      (dtwTable_cost_nonneg dist hdist maxSlope S S i (i + 1))
      (dtwRow_cost_nonneg dist hdist maxSlope S _
        (dtwTable_cost_nonneg dist hdist maxSlope S S i) _ i)

/-- The Euclidean point distance is non-negative. -/
theorem pointDistance_nonneg (a b : FVector) : 0 ≤ pointDistance a b :=
  Real.sqrt_nonneg _

/-- The Euclidean point distance of a sample to itself is zero. -/
theorem pointDistance_self (a : FVector) : pointDistance a a = 0 := by
  simp [pointDistance]

/-- The least element of a list of non-negative costs is non-negative. -/
theorem foldr_min_nonneg {K : Type} [LinearOrderedField K] (l : List (WithTop K))
    (hl : ∀ x ∈ l, 0 ≤ x) : 0 ≤ l.foldr min ⊤ := by
  induction l with
  | nil => exact le_top
  | cons x rest ih =>
    exact le_min (hl x (List.mem_cons_self _ _))
      (ih (fun y hy => hl y (List.mem_cons_of_mem _ hy)))

/-- The cost returned for a sequence against itself is zero. -/
theorem dtwWith_self {K : Type} [LinearOrderedField K] (dist : FVector → FVector → K)
    (hdist : ∀ a b, 0 ≤ dist a b) (hself : ∀ a, dist a a = 0) (maxSlope : Int)
    (S : List FVector) : dtwWith dist maxSlope S S = 0 :=
  dtwTable_diagonal dist hdist hself maxSlope S S.length (le_refl _)

/-- The least cost over the endings of a non-empty sequence against the whole
sequence is zero. -/
theorem dtwOverEndingsWith_self {K : Type} [LinearOrderedField K]
    (dist : FVector → FVector → K) (hdist : ∀ a b, 0 ≤ dist a b)
    (hself : ∀ a, dist a a = 0) (maxSlope : Int) (S : List FVector) (hS : S ≠ []) :
    dtwOverEndingsWith dist maxSlope S S = 0 := by
  cases S with
  | nil => exact absurd rfl hS
  | cons a rest =>
    unfold dtwOverEndingsWith
    rw [List.tails, List.filter_cons_of_pos (by rfl), List.map_cons, List.foldr_cons,
      dtwWith_self dist hdist hself]
    refine min_eq_left (foldr_min_nonneg _ ?_)
    intro x hx
    obtain ⟨A1, _, rfl⟩ := List.mem_map.mp hx
    exact dtwTable_cost_nonneg dist hdist maxSlope A1 (a :: rest) _ _

/-- C8: for every non-empty sample sequence `S` (and every `maxSlope`),
`dtw(S, S) = 0`: the entry `cost[lenS][lenS]` of the grid is zero, and so is
the least cost over the endings of `S`, the reading of the comment above the
declaration. -/
theorem dtw_self (self : UVRGestureComponent) (S : FVRGesture) (hS : S.Samples ≠ []) :
    dtw self S S = 0 ∧ dtwOverEndings self S S = 0 :=
  ⟨dtwWith_self pointDistance pointDistance_nonneg pointDistance_self self.maxSlope S.Samples,
    dtwOverEndingsWith_self pointDistance pointDistance_nonneg pointDistance_self
      self.maxSlope S.Samples hS⟩

/-- C8 at a concrete input: the three collinear points `(0,0,0)`, `(1,0,0)`,
`(2,0,0)` against themselves. -/
theorem dtw_self_witness :
    collinearGesture.Samples ≠ []
    ∧ dtw exampleComponent collinearGesture collinearGesture = 0
    ∧ dtwOverEndings exampleComponent collinearGesture collinearGesture = 0 :=
  ⟨List.cons_ne_nil _ _,
    dtw_self exampleComponent collinearGesture (List.cons_ne_nil _ _)⟩

end BalloonWars
